import Mathlib

/-!
Shallow embedding of `src/lambda_function.py` (the request orchestrator of the
NLC repository).  The handler is modelled as a pure function of an environment
that records the responses of the external services it talks to (S3, Textract,
the Hugging Face inference endpoint).  Every branch of the Python handler is
reflected, and a trace of the outbound calls made during the run is returned
alongside the HTTP response so that claims about which external calls occur
can be stated.

Python strings are sequences of code points, so the string helpers used by the
handler (slicing `text[:n]`, `str.replace`, `str.strip`, `" ".join`) are
modelled over `List Char` with Python semantics.
-/

namespace NLC

/-- Python slicing `s[:n]` (by code points). -/
def pyTake (s : String) (n : Nat) : String :=
  ⟨s.data.take n⟩

/-- One step list of `" ".join`: Python `sep.join(parts)`. -/
def pyJoin (sep : String) : List String → String
  | [] => ""
  | s :: rest => rest.foldl (fun acc t => acc ++ sep ++ t) s

/-- Core of Python `str.replace`: replaces every non-overlapping occurrence of
`pat` (scanning left to right) by `repl`.  The `fuel` argument only makes the
recursion structural; it is called with `fuel = s.length`, which the scan can
never exhaust, since a match consumes `pat.length` characters of the input
and a non-match consumes one.  The handler only ever calls this with a
non-empty pattern (the prompt string), so the empty pattern is mapped to the
identity. -/
def replaceGo (pat repl : List Char) : Nat → List Char → List Char
  | 0, s => s
  | fuel + 1, s =>
    match s with
    | [] => []
    | c :: rest =>
      if pat ≠ [] ∧ pat = (c :: rest).take pat.length then
        repl ++ replaceGo pat repl fuel (List.drop (pat.length - 1) rest)
      else
        c :: replaceGo pat repl fuel rest

/-- Python `s.replace(pat, repl)` (code-point semantics). -/
def pyReplace (s pat repl : String) : String :=
  ⟨replaceGo pat.data repl.data s.data.length s.data⟩

/-- Python `s.strip()`: drop leading and trailing whitespace. -/
def pyStrip (s : String) : String :=
  ⟨(((s.data.dropWhile Char.isWhitespace).reverse.dropWhile Char.isWhitespace).reverse)⟩

/-- A Textract block, as consumed by the handler: only `BlockType` and `Text`
are read (both via `dict.get`, hence optional). -/
structure Block where
  blockType : Option String
  text : Option String
deriving DecidableEq, Repr

/-- One response of `get_document_text_detection`: the handler reads
`JobStatus`, `StatusMessage` (optional), `Blocks` (defaulting to `[]`) and
`NextToken` (optional). -/
structure TextractPage where
  jobStatus : String
  statusMessage : Option String
  blocks : List Block
  nextToken : Option String
deriving DecidableEq, Repr

/-- The request body after `json.loads`, restricted to the two fields the
handler reads with `body.get`. -/
structure ParsedBody where
  pdf_base64 : Option String
  question : Option String
deriving DecidableEq, Repr

/-- One candidate object of the inference response; the handler reads its
`generated_text` field via `dict.get` with a default. -/
structure HfItem where
  generated_text : Option String
deriving DecidableEq, Repr

/-- The parsed JSON body of the inference response: the endpoint returns
either a single object or a list of objects (`isinstance(response_data, list)`
in the source). -/
inductive HfJson where
  | obj (item : HfItem)
  | list (items : List HfItem)
deriving DecidableEq, Repr

/-- Outcome of the `requests.post` call to the inference endpoint.
`requestException` models a `requests.exceptions.RequestException` raised by
the call itself (caught by the dedicated handler in the source).  `response`
carries the HTTP status, the raw body text, and the result of `.json()`:
`Except.error` models a body that fails to parse as JSON.  Since requests
2.27 the `requests.exceptions.JSONDecodeError` raised by `.json()` is a
subclass of `RequestException`, so this failure is caught by the same
dedicated handler as a network failure and reported with the same label. -/
inductive HfOutcome where
  | requestException (msg : String)
  | response (status : Nat) (rtext : String) (parsed : Except String HfJson)

/-- Outcome of the `delete_object` call.  The source catches only
`ClientError` around the delete and merely logs it; any other exception
raised by the call (for example a botocore connection error) is not caught
there and instead propagates to the generic handler of the Textract section,
which replaces the success response with a 500 error. -/
inductive DeleteOutcome where
  | ok
  | clientError (msg : String)
  | otherError (msg : String)
deriving DecidableEq, Repr

/-- The message of a delete failure that escapes the `ClientError` handler,
if any: `none` for a successful delete and for a logged `ClientError`. -/
def deleteEscalation : DeleteOutcome → Option String
  | DeleteOutcome.otherError e => some e
  | _ => none

/-- Environment of one run: the responses of every external service the
handler calls.  `polls i` is the response of the (i+1)-st status poll;
`contPages` are the successive pages returned by pagination fetches made with
a `NextToken`.  `b64Result` models `base64.b64decode` (its failure is not a
`ClientError`, so it escapes to the top-level handler); `s3PutResult` and
`startResult` model the `ClientError`/exception outcomes of the corresponding
SDK calls; `deleteResult` distinguishes a successful delete, a `ClientError`
(caught and logged by the source) and any other exception (uncaught at the
delete, handled by the generic Textract-section handler). -/
structure Env where
  bodyParse : Option ParsedBody
  b64Result : Except String Unit
  s3PutResult : Except String Unit
  startResult : Except String String
  polls : Nat → TextractPage
  contPages : List TextractPage
  hf : HfOutcome
  deleteResult : DeleteOutcome

/-- Outbound calls the handler can make, recorded in run traces. -/
inductive Call where
  | s3Put
  | startJob
  | pollStatus
  | sleep5
  | fetchPage
  | hfCall
  | s3Delete
deriving DecidableEq, Repr

/-- Body of a handler response: error responses carry `{error, details}`,
the success response carries `{question, answer, textPreview}`. -/
inductive RespBody where
  | errorBody (error details : String)
  | successBody (question answer textPreview : String)
deriving DecidableEq, Repr

/-- An HTTP response of the handler. -/
structure HttpResponse where
  statusCode : Nat
  headers : List (String × String)
  body : RespBody
deriving DecidableEq, Repr

/-- The `details` field of an error body, if the body is an error body. -/
def respDetails : RespBody → Option String
  | RespBody.errorBody _ d => some d
  | RespBody.successBody _ _ _ => none

/-- The `error` field of an error body, if the body is an error body. -/
def respError : RespBody → Option String
  | RespBody.errorBody e _ => some e
  | RespBody.successBody _ _ _ => none

/-- `create_error_response` from the source: details default to the error
message when the supplied details are `None` or empty (Python falsiness). -/
def create_error_response (status_code : Nat) (error_message : String)
    (error_details : Option String) : HttpResponse :=
  { statusCode := status_code,
    headers := [("Content-Type", "application/json"), ("Access-Control-Allow-Origin", "*")],
    body := RespBody.errorBody error_message
      (match error_details with
       | some d => if d = "" then error_message else d
       | none => error_message) }

/-- Python truthiness of an optional string (`not x` in the source):
absent or empty means falsy. -/
def truthy : Option String → Bool
  | none => false
  | some s => !(s = "")

/-- The list of missing parameter names, built in source order
(pdf first, then question). -/
def missing_params (pdf_base64 question : Option String) : List String :=
  (if truthy pdf_base64 then [] else ["pdf_base64"]) ++
    (if truthy question then [] else ["question"])

/-- The texts collected from one page of blocks: `block.get('Text', '')` for
every block whose `BlockType` is `LINE`, in block order. -/
def collectLines (blocks : List Block) : List String :=
  blocks.filterMap fun b =>
    if b.blockType = some "LINE" then some (b.text.getD "") else none

/-- The pagination loop of the success branch: collect the lines of the page
already in hand, then, while a `NextToken` is present, fetch the next page
(recorded as a `fetchPage` call) and continue.  The environment supplies the
successive fetched pages as a list. -/
def paginate : TextractPage → List TextractPage → List String × List Call
  | page, [] => (collectLines page.blocks, [])
  | page, p :: ps =>
    let lines := collectLines page.blocks
    match page.nextToken with
    | none => (lines, [])
    | some _ =>
      let r := paginate p ps
      (lines ++ r.1, Call.fetchPage :: r.2)

/-- Result of the poll loop: terminal success with the page returned by the
final poll, terminal failure with the status message of the failing poll, or
exhaustion of the attempt budget. -/
inductive PollOutcome where
  | succeeded (page : TextractPage)
  | failed (statusMessage : Option String)
  | exhausted
deriving DecidableEq, Repr

/-- The poll loop (`for attempt in range(max_retries)`): at each attempt the
status is polled; on `SUCCEEDED` and `FAILED` the loop stops at once, any
other status sleeps 5 seconds and retries.  `fuel` is the number of attempts
left and `i` the index of the next attempt. -/
def pollLoop (polls : Nat → TextractPage) : Nat → Nat → PollOutcome × List Call
  | 0, _ => (PollOutcome.exhausted, [])
  | fuel + 1, i =>
    let page := polls i
    if page.jobStatus = "SUCCEEDED" then
      (PollOutcome.succeeded page, [Call.pollStatus])
    else if page.jobStatus = "FAILED" then
      (PollOutcome.failed page.statusMessage, [Call.pollStatus])
    else
      let r := pollLoop polls fuel (i + 1)
      (r.1, Call.pollStatus :: Call.sleep5 :: r.2)

/-- The prompt string built by the source (an f-string over the truncated
context and the question). -/
def buildPrompt (text_chunk question : String) : String :=
  "Provide a detailed answer to the following question based on the context. Only respond with the answer, without any additional questions.\n\nContext: " ++
    text_chunk ++ "\n\nQuestion: " ++ question ++ "\n\nAnswer:"

/-- Lines 151-154 of the source: take `response_data[0]` when the parsed
response is a list (an empty list raises `IndexError`, whose message reaches
the generic Textract-section handler), else the object itself, and read
`generated_text` with the default `'No answer found'`. -/
def extract_generated : HfJson → Except String String
  | HfJson.list [] => Except.error "list index out of range"
  | HfJson.list (item :: _) => Except.ok (item.generated_text.getD "No answer found")
  | HfJson.obj item => Except.ok (item.generated_text.getD "No answer found")

/-- The successful 200 response: `textPreview` is the first 200 characters of
the text, ellipsis-suffixed exactly when the text is longer than 200. -/
def success_response (question answer text : String) : HttpResponse :=
  { statusCode := 200,
    headers := [("Content-Type", "application/json"), ("Access-Control-Allow-Origin", "*")],
    body := RespBody.successBody question answer
      (if 200 < text.data.length then pyTake text 200 ++ "..." else text) }

/-- The inference stage (step 7 of the source): build the prompt from the
first 2000 characters of the text, call the endpoint, map failures, extract
and clean the answer, attempt the S3 delete, and return the success payload.
A `.json()` parse failure is a `RequestException` (requests 2.27 and later)
and lands in the same handler as a network failure; an `IndexError` from an
empty list is not, and reaches the generic Textract-section handler, as does
a delete failure that is not a `ClientError`. -/
def hf_stage (env : Env) (text question : String) (pre : List Call) :
    HttpResponse × List Call :=
  let text_chunk := pyTake text 2000
  let prompt := buildPrompt text_chunk question
  let tr := pre ++ [Call.hfCall]
  match env.hf with
  | HfOutcome.requestException msg =>
      (create_error_response 500 ("Error calling Hugging Face API: " ++ msg) none, tr)
  | HfOutcome.response status rtext parsed =>
      if status = 200 then
        match parsed with
        | Except.error e =>
            (create_error_response 500 ("Error calling Hugging Face API: " ++ e) none, tr)
        | Except.ok j =>
            match extract_generated j with
            | Except.error e =>
                (create_error_response 500 ("Textract processing error: " ++ e) none, tr)
            | Except.ok raw =>
                let answer := pyStrip (pyReplace raw prompt "")
                let tr2 := tr ++ [Call.s3Delete]
                match env.deleteResult with
                | DeleteOutcome.otherError e =>
                    (create_error_response 500 ("Textract processing error: " ++ e) none, tr2)
                | _ => (success_response question answer text, tr2)
      else
        (create_error_response 500 ("Hugging Face API error: " ++ rtext) none, tr)

/-- Steps 6 onward of the source: run the poll loop, map `FAILED` and
exhaustion, paginate and join the line texts on success, treat an empty
joined text as the timeout error, and otherwise enter the inference stage. -/
def poll_stage (env : Env) (question : String) : HttpResponse × List Call :=
  let pre := [Call.s3Put, Call.startJob]
  match pollLoop env.polls 12 0 with
  | (PollOutcome.failed msg, tr) =>
      (create_error_response 500 "Textract processing failed"
        (some (msg.getD "No error details available")), pre ++ tr)
  | (PollOutcome.exhausted, tr) =>
      (create_error_response 500 "Textract processing timeout" none, pre ++ tr)
  | (PollOutcome.succeeded page, tr) =>
      let pag := paginate page env.contPages
      let text := pyJoin " " pag.1
      if text = "" then
        (create_error_response 500 "Textract processing timeout" none, pre ++ tr ++ pag.2)
      else
        hf_stage env text question (pre ++ tr ++ pag.2)

/-- `lambda_handler` of the source, as a function of the environment of one
run.  It returns the HTTP response together with the trace of outbound calls
made during the run. -/
def lambda_handler (env : Env) : HttpResponse × List Call :=
  match env.bodyParse with
  | none => (create_error_response 400 "Invalid JSON in request body" none, [])
  | some body =>
    if truthy body.pdf_base64 && truthy body.question then
      match env.b64Result with
      | Except.error e =>
          (create_error_response 500 ("Unexpected error: " ++ e) none, [])
      | Except.ok _ =>
        match env.s3PutResult with
        | Except.error e =>
            (create_error_response 500 ("S3 upload error: " ++ e) none, [Call.s3Put])
        | Except.ok _ =>
          match env.startResult with
          | Except.error e =>
              (create_error_response 500 ("Textract processing error: " ++ e) none,
                [Call.s3Put, Call.startJob])
          | Except.ok _ => poll_stage env (body.question.getD "")
    else
      (create_error_response 400
        ("Missing required parameters: " ++
          String.intercalate ", " (missing_params body.pdf_base64 body.question)) none, [])

/-- Spec-side description of the lines of one page: the texts of exactly the
blocks whose type is `LINE`, in block order. -/
def lineTexts (p : TextractPage) : List String :=
  (p.blocks.filter fun b => b.blockType == some "LINE").map fun b => b.text.getD ""

/-- Spec-side description of a well-formed pagination sequence: every page but
the last carries a continuation token and the last carries none, so the loop
consumes exactly these pages. -/
def chain : TextractPage → List TextractPage → Prop
  | page, [] => page.nextToken = none
  | page, p :: ps => page.nextToken ≠ none ∧ chain p ps

/-- Spec-side coercion of the mixed inference response shape: the first
element when the response is a sequence, the object itself otherwise. -/
def firstCandidate : HfJson → Option HfItem
  | HfJson.list items => items.head?
  | HfJson.obj item => some item

/-- Number of status polls recorded in a trace. -/
def countPolls (tr : List Call) : Nat :=
  tr.count Call.pollStatus

/-- A poll that leaves the loop running (neither terminal status). -/
def nonTerminal (p : TextractPage) : Prop :=
  p.jobStatus ≠ "SUCCEEDED" ∧ p.jobStatus ≠ "FAILED"

/-- Shape invariant of every response of the handler: the two fixed headers,
a status code of 200, 400 or 500, and an `{error, details}` body whenever the
status is not 200. -/
def stdShape (r : HttpResponse) : Prop :=
  r.headers = [("Content-Type", "application/json"), ("Access-Control-Allow-Origin", "*")] ∧
    (r.statusCode = 200 ∨ r.statusCode = 400 ∨ r.statusCode = 500) ∧
    (r.statusCode ≠ 200 → ∃ m d, r.body = RespBody.errorBody m d)

/-- A well-formed request body used by concrete runs. -/
def wBody : ParsedBody := { pdf_base64 := some "JVBERg==", question := some "Why?" }

/-- A final poll page with one LINE block and no continuation token. -/
def wLinePage : TextractPage :=
  { jobStatus := "SUCCEEDED", statusMessage := none,
    blocks := [{ blockType := some "LINE", text := some "hello" }], nextToken := none }

/-- A poll page whose job is still running. -/
def wRunningPage : TextractPage :=
  { jobStatus := "RUNNING", statusMessage := none, blocks := [], nextToken := none }

/-- A baseline environment for a fully successful run. -/
def wEnvBase : Env :=
  { bodyParse := some wBody,
    b64Result := Except.ok (),
    s3PutResult := Except.ok (),
    startResult := Except.ok "job-1",
    polls := fun _ => wLinePage,
    contPages := [],
    hf := HfOutcome.response 200 "raw"
      (Except.ok (HfJson.obj { generated_text := some "An answer." })),
    deleteResult := DeleteOutcome.ok }

/-- The successful run, except that the delete raises a non-ClientError
exception (a botocore connection failure). -/
def wEnvDeleteConn : Env :=
  { wEnvBase with deleteResult :=
      DeleteOutcome.otherError "Could not connect to the endpoint URL" }

/-- The successful run, except that the delete fails with a ClientError,
which the source catches and logs. -/
def wEnvDeleteLogged : Env :=
  { wEnvBase with deleteResult := DeleteOutcome.clientError "AccessDenied" }

/-- A run whose job stays running on every poll. -/
def wEnvRunning : Env := { wEnvBase with polls := fun _ => wRunningPage }

/-- A run whose job fails at the first poll with a non-empty status message. -/
def wEnvFailed : Env :=
  { wEnvBase with polls := fun _ =>
      { jobStatus := "FAILED", statusMessage := some "boom", blocks := [], nextToken := none } }

/-- A run whose job fails at the first poll with a status message that is
present but empty. -/
def wEnvFailedEmptyMsg : Env :=
  { wEnvBase with polls := fun _ =>
      { jobStatus := "FAILED", statusMessage := some "", blocks := [], nextToken := none } }

/-- A run whose job succeeds but whose pages carry no LINE block at all. -/
def wEnvEmptyText : Env :=
  { wEnvBase with polls := fun _ =>
      { jobStatus := "SUCCEEDED", statusMessage := none, blocks := [], nextToken := none } }

/-- A run whose base64 decoding raises. -/
def wEnvB64Err : Env := { wEnvBase with b64Result := Except.error "Invalid base64" }

/-- A run whose inference endpoint answers 200 with an unparseable body. -/
def wEnvParseErr : Env :=
  { wEnvBase with hf := HfOutcome.response 200 "not json" (Except.error "Expecting value") }

/-- A run whose inference endpoint answers 200 with an empty JSON list. -/
def wEnvEmptyList : Env :=
  { wEnvBase with hf := HfOutcome.response 200 "[]" (Except.ok (HfJson.list [])) }

/-- A run whose request body is not valid JSON. -/
def wEnvBadBody : Env := { wEnvBase with bodyParse := none }

/-- A run with an empty pdf_base64 field and a question that is also falsy. -/
def wEnvMissingBoth : Env :=
  { wEnvBase with bodyParse := some { pdf_base64 := none, question := some "" } }

/-- A run with a missing pdf_base64 field only. -/
def wEnvMissingPdf : Env :=
  { wEnvBase with bodyParse := some { pdf_base64 := some "", question := some "Why?" } }

/-- A run with a missing question field only. -/
def wEnvMissingQ : Env :=
  { wEnvBase with bodyParse := some { pdf_base64 := some "JVBERg==", question := none } }

theorem collectLines_eq (blocks : List Block) :
    collectLines blocks =
      (blocks.filter fun b => b.blockType == some "LINE").map fun b => b.text.getD "" := by
  induction blocks with
  | nil => rfl
  | cons b bs ih =>
    simp only [collectLines] at ih ⊢
    by_cases h : b.blockType = some "LINE"
    · simp [List.filterMap_cons, List.filter_cons, h, ih]
    · simp [List.filterMap_cons, List.filter_cons, h, ih]

theorem collectLines_eq_lineTexts (p : TextractPage) :
    collectLines p.blocks = lineTexts p :=
  collectLines_eq p.blocks

theorem pollLoop_stops (polls : Nat → TextractPage) (j : Nat) :
    ∀ fuel i : Nat, j < fuel →
      (∀ m, m < j → nonTerminal (polls (i + m))) →
      (((polls (i + j)).jobStatus = "SUCCEEDED" →
          pollLoop polls fuel i =
            (PollOutcome.succeeded (polls (i + j)),
              (List.replicate j [Call.pollStatus, Call.sleep5]).flatten ++ [Call.pollStatus])) ∧
       ((polls (i + j)).jobStatus = "FAILED" →
          pollLoop polls fuel i =
            (PollOutcome.failed (polls (i + j)).statusMessage,
              (List.replicate j [Call.pollStatus, Call.sleep5]).flatten ++ [Call.pollStatus]))) := by
  induction j with
  | zero =>
    intro fuel i hlt hnt
    cases fuel with
    | zero => omega
    | succ f =>
      constructor
      · intro h
        rw [Nat.add_zero] at h
        simp [pollLoop, h]
      · intro h
        rw [Nat.add_zero] at h
        have hne : ¬ (polls i).jobStatus = "SUCCEEDED" := by
          rw [h]; decide
        simp [pollLoop, h, hne]
  | succ j ih =>
    intro fuel i hlt hnt
    cases fuel with
    | zero => omega
    | succ f =>
      have h0 : nonTerminal (polls i) := by
        have := hnt 0 (Nat.succ_pos j)
        rwa [Nat.add_zero] at this
      obtain ⟨hs, hf⟩ := h0
      have hnt' : ∀ m, m < j → nonTerminal (polls (i + 1 + m)) := by
        intro m hm
        have := hnt (m + 1) (by omega)
        rwa [show i + (m + 1) = i + 1 + m by omega] at this
      have rec := ih f (i + 1) (by omega) hnt'
      have hidx : i + 1 + j = i + (j + 1) := by omega
      constructor
      · intro h
        have h' : (polls (i + 1 + j)).jobStatus = "SUCCEEDED" := by rwa [hidx]
        have heq := rec.1 h'
        simp only [pollLoop, hs, hf, if_false, ite_false]
        rw [heq, hidx]
        simp [List.replicate_succ]
      · intro h
        have h' : (polls (i + 1 + j)).jobStatus = "FAILED" := by rwa [hidx]
        have heq := rec.2 h'
        simp only [pollLoop, hs, hf, if_false, ite_false]
        rw [heq, hidx]
        simp [List.replicate_succ]

theorem pollLoop_exhausts (polls : Nat → TextractPage) :
    ∀ fuel i : Nat, (∀ m, m < fuel → nonTerminal (polls (i + m))) →
      pollLoop polls fuel i =
        (PollOutcome.exhausted, (List.replicate fuel [Call.pollStatus, Call.sleep5]).flatten) := by
  intro fuel
  induction fuel with
  | zero => intro i _; rfl
  | succ f ih =>
    intro i hnt
    have h0 : nonTerminal (polls i) := by
      have := hnt 0 (Nat.succ_pos f)
      rwa [Nat.add_zero] at this
    obtain ⟨hs, hf⟩ := h0
    have hnt' : ∀ m, m < f → nonTerminal (polls (i + 1 + m)) := by
      intro m hm
      have := hnt (m + 1) (by omega)
      rwa [show i + (m + 1) = i + 1 + m by omega] at this
    have heq := ih (i + 1) hnt'
    simp only [pollLoop, hs, hf, if_false, ite_false]
    rw [heq]
    simp [List.replicate_succ]

theorem countPolls_pollLoop_le (polls : Nat → TextractPage) :
    ∀ fuel i : Nat, countPolls (pollLoop polls fuel i).2 ≤ fuel := by
  intro fuel
  induction fuel with
  | zero => intro i; simp [pollLoop, countPolls]
  | succ f ih =>
    intro i
    by_cases hs : (polls i).jobStatus = "SUCCEEDED"
    · simp [pollLoop, hs, countPolls]
    · by_cases hf : (polls i).jobStatus = "FAILED"
      · simp [pollLoop, hs, hf, countPolls]
      · have hle := ih (i + 1)
        simp only [pollLoop, hs, hf, if_false, ite_false]
        simp only [countPolls, List.count_cons] at hle ⊢
        simp
        omega

theorem countPolls_replicate_flatten (j : Nat) :
    countPolls ((List.replicate j [Call.pollStatus, Call.sleep5]).flatten) = j := by
  induction j with
  | zero => rfl
  | succ n ih =>
    simp only [List.replicate_succ, List.flatten_cons, countPolls, List.count_append,
      List.count_cons, List.count_nil] at ih ⊢
    simp
    omega

theorem paginate_chain (rest : List TextractPage) :
    ∀ page : TextractPage, chain page rest →
      paginate page rest =
        (((page :: rest).map fun p => collectLines p.blocks).flatten,
          List.replicate rest.length Call.fetchPage) := by
  induction rest with
  | nil =>
    intro page hch
    have h : page.nextToken = none := hch
    simp [paginate, h]
  | cons p ps ih =>
    intro page hch
    obtain ⟨h1, h2⟩ := hch
    obtain ⟨t, ht⟩ := Option.ne_none_iff_exists.mp h1
    have heq := ih p h2
    simp only [paginate, ← ht]
    rw [heq]
    simp [List.replicate_succ]

theorem paginate_trace_fetch (rest : List TextractPage) :
    ∀ (page : TextractPage) (c : Call), c ∈ (paginate page rest).2 → c = Call.fetchPage := by
  induction rest with
  | nil =>
    intro page c hc
    simp [paginate] at hc
  | cons p ps ih =>
    intro page c hc
    simp only [paginate] at hc
    cases h : page.nextToken with
    | none => rw [h] at hc; simp at hc
    | some t =>
      rw [h] at hc
      simp only [List.mem_cons] at hc
      rcases hc with hc | hc
      · exact hc
      · exact ih p c hc

theorem countPolls_paginate (rest : List TextractPage) (page : TextractPage) :
    countPolls (paginate page rest).2 = 0 := by
  rw [countPolls, List.count_eq_zero]
  intro hmem
  have := paginate_trace_fetch rest page Call.pollStatus hmem
  exact absurd this (by decide)

theorem extract_generated_of_firstCandidate (j : HfJson) (item : HfItem)
    (h : firstCandidate j = some item) :
    extract_generated j = Except.ok (item.generated_text.getD "No answer found") := by
  cases j with
  | obj it =>
    simp only [firstCandidate, Option.some_inj] at h
    subst h
    rfl
  | list items =>
    cases items with
    | nil => simp [firstCandidate] at h
    | cons a as =>
      simp only [firstCandidate, List.head?_cons, Option.some_inj] at h
      subst h
      rfl

theorem lambda_handler_reaches_poll (env : Env) (body : ParsedBody) (jid : String)
    (h1 : env.bodyParse = some body) (h2 : truthy body.pdf_base64 = true)
    (h3 : truthy body.question = true) (h4 : env.b64Result = Except.ok ())
    (h5 : env.s3PutResult = Except.ok ()) (h6 : env.startResult = Except.ok jid) :
    lambda_handler env = poll_stage env (body.question.getD "") := by
  simp [lambda_handler, h1, h2, h3, h4, h5, h6]

theorem stdShape_create (sc : Nat) (m : String) (d : Option String)
    (h : sc = 200 ∨ sc = 400 ∨ sc = 500) : stdShape (create_error_response sc m d) := by
  refine ⟨rfl, h, fun _ => ?_⟩
  exact ⟨m, _, rfl⟩

theorem stdShape_success (q a t : String) : stdShape (success_response q a t) := by
  refine ⟨rfl, Or.inl rfl, fun h => absurd rfl h⟩

theorem stdShape_hf_stage (env : Env) (t q : String) (pre : List Call) :
    stdShape (hf_stage env t q pre).1 := by
  cases henv : env.hf with
  | requestException msg =>
    simp only [hf_stage, henv]
    exact stdShape_create _ _ _ (Or.inr (Or.inr rfl))
  | response s r p =>
    by_cases hst : s = 200
    · cases p with
      | error e =>
        simp only [hf_stage, henv, hst, if_true, ite_true]
        exact stdShape_create _ _ _ (Or.inr (Or.inr rfl))
      | ok j =>
        cases hx : extract_generated j with
        | error e =>
          simp only [hf_stage, henv, hst, if_true, ite_true, hx]
          exact stdShape_create _ _ _ (Or.inr (Or.inr rfl))
        | ok raw =>
          cases hdc : env.deleteResult with
          | ok =>
            simp only [hf_stage, henv, hst, if_true, ite_true, hx, hdc]
            exact stdShape_success _ _ _
          | clientError m =>
            simp only [hf_stage, henv, hst, if_true, ite_true, hx, hdc]
            exact stdShape_success _ _ _
          | otherError e =>
            simp only [hf_stage, henv, hst, if_true, ite_true, hx, hdc]
            exact stdShape_create _ _ _ (Or.inr (Or.inr rfl))
    · simp only [hf_stage, henv, hst, if_false, ite_false]
      exact stdShape_create _ _ _ (Or.inr (Or.inr rfl))

theorem stdShape_poll_stage (env : Env) (q : String) :
    stdShape (poll_stage env q).1 := by
  rcases hp : pollLoop env.polls 12 0 with ⟨o, tr⟩
  cases o with
  | failed msg =>
    simp only [poll_stage, hp]
    exact stdShape_create _ _ _ (Or.inr (Or.inr rfl))
  | exhausted =>
    simp only [poll_stage, hp]
    exact stdShape_create _ _ _ (Or.inr (Or.inr rfl))
  | succeeded page =>
    simp only [poll_stage, hp]
    by_cases ht : pyJoin " " (paginate page env.contPages).1 = ""
    · simp only [ht, if_true, ite_true]
      exact stdShape_create _ _ _ (Or.inr (Or.inr rfl))
    · simp only [ht, if_false, ite_false]
      exact stdShape_hf_stage _ _ _ _

theorem stdShape_lambda_handler (env : Env) : stdShape (lambda_handler env).1 := by
  cases hb : env.bodyParse with
  | none =>
    simp only [lambda_handler, hb]
    exact stdShape_create _ _ _ (Or.inr (Or.inl rfl))
  | some body =>
    by_cases hv : (truthy body.pdf_base64 && truthy body.question) = true
    · cases h4 : env.b64Result with
      | error e =>
        simp only [lambda_handler, hb, hv, if_true, ite_true, h4]
        exact stdShape_create _ _ _ (Or.inr (Or.inr rfl))
      | ok u =>
        cases h5 : env.s3PutResult with
        | error e =>
          simp only [lambda_handler, hb, hv, if_true, ite_true, h4, h5]
          exact stdShape_create _ _ _ (Or.inr (Or.inr rfl))
        | ok v =>
          cases h6 : env.startResult with
          | error e =>
            simp only [lambda_handler, hb, hv, if_true, ite_true, h4, h5, h6]
            exact stdShape_create _ _ _ (Or.inr (Or.inr rfl))
          | ok jid =>
            simp only [lambda_handler, hb, hv, if_true, ite_true, h4, h5, h6]
            exact stdShape_poll_stage _ _
    · simp only [lambda_handler, hb, hv, if_false, Bool.not_eq_true, ite_false]
      exact stdShape_create _ _ _ (Or.inr (Or.inl rfl))

theorem countPolls_hf_stage (env : Env) (t q : String) (pre : List Call) :
    countPolls (hf_stage env t q pre).2 = countPolls pre := by
  cases henv : env.hf with
  | requestException msg =>
    simp [hf_stage, henv, countPolls, List.count_append]
  | response s r p =>
    by_cases hst : s = 200
    · cases p with
      | error e => simp [hf_stage, henv, hst, countPolls, List.count_append]
      | ok j =>
        cases hx : extract_generated j with
        | error e => simp [hf_stage, henv, hst, hx, countPolls, List.count_append]
        | ok raw =>
          cases hdc : env.deleteResult with
          | ok => simp [hf_stage, henv, hst, hx, hdc, countPolls, List.count_append]
          | clientError m => simp [hf_stage, henv, hst, hx, hdc, countPolls, List.count_append]
          | otherError e => simp [hf_stage, henv, hst, hx, hdc, countPolls, List.count_append]
    · simp [hf_stage, henv, hst, countPolls, List.count_append]

theorem countPolls_poll_stage (env : Env) (q : String) :
    countPolls (poll_stage env q).2 ≤ 12 := by
  rcases hp : pollLoop env.polls 12 0 with ⟨o, tr⟩
  have htr : countPolls tr ≤ 12 := by
    have h := countPolls_pollLoop_le env.polls 12 0
    rw [hp] at h
    exact h
  simp only [countPolls] at htr
  cases o with
  | failed msg =>
    simp [poll_stage, hp, countPolls, List.count_append]
    omega
  | exhausted =>
    simp [poll_stage, hp, countPolls, List.count_append]
    omega
  | succeeded page =>
    have hpag := countPolls_paginate env.contPages page
    simp only [countPolls] at hpag
    by_cases ht : pyJoin " " (paginate page env.contPages).1 = ""
    · simp [poll_stage, hp, ht, countPolls, List.count_append, hpag]
      omega
    · simp only [poll_stage, hp, ht, if_false, ite_false]
      rw [countPolls_hf_stage]
      simp [countPolls, List.count_append, hpag]
      omega

theorem countPolls_lambda_handler (env : Env) :
    countPolls (lambda_handler env).2 ≤ 12 := by
  cases hb : env.bodyParse with
  | none => simp [lambda_handler, hb, countPolls]
  | some body =>
    by_cases hv : (truthy body.pdf_base64 && truthy body.question) = true
    · cases h4 : env.b64Result with
      | error e => simp [lambda_handler, hb, hv, h4, countPolls]
      | ok u =>
        cases h5 : env.s3PutResult with
        | error e => simp [lambda_handler, hb, hv, h4, h5, countPolls]
        | ok v =>
          cases h6 : env.startResult with
          | error e => simp [lambda_handler, hb, hv, h4, h5, h6, countPolls]
          | ok jid =>
            simp only [lambda_handler, hb, hv, if_true, ite_true, h4, h5, h6]
            exact countPolls_poll_stage _ _
    · simp [lambda_handler, hb, hv, countPolls]

theorem delete_of_200_hf_stage (env : Env) (t q : String) (pre : List Call)
    (h : (hf_stage env t q pre).1.statusCode = 200) :
    Call.s3Delete ∈ (hf_stage env t q pre).2 := by
  cases henv : env.hf with
  | requestException msg =>
    simp [hf_stage, henv, create_error_response] at h
  | response s r p =>
    by_cases hst : s = 200
    · cases p with
      | error e => simp [hf_stage, henv, hst, create_error_response] at h
      | ok j =>
        cases hx : extract_generated j with
        | error e => simp [hf_stage, henv, hst, hx, create_error_response] at h
        | ok raw =>
          cases hdc : env.deleteResult with
          | ok => simp [hf_stage, henv, hst, hx, hdc]
          | clientError m => simp [hf_stage, henv, hst, hx, hdc]
          | otherError e => simp [hf_stage, henv, hst, hx, hdc, create_error_response] at h
    · simp [hf_stage, henv, hst, create_error_response] at h

theorem delete_of_200_poll_stage (env : Env) (q : String)
    (h : (poll_stage env q).1.statusCode = 200) :
    Call.s3Delete ∈ (poll_stage env q).2 := by
  rcases hp : pollLoop env.polls 12 0 with ⟨o, tr⟩
  cases o with
  | failed msg => simp [poll_stage, hp, create_error_response] at h
  | exhausted => simp [poll_stage, hp, create_error_response] at h
  | succeeded page =>
    by_cases ht : pyJoin " " (paginate page env.contPages).1 = ""
    · simp [poll_stage, hp, ht, create_error_response] at h
    · simp only [poll_stage, hp, ht, if_false, ite_false] at h ⊢
      exact delete_of_200_hf_stage _ _ _ _ h

theorem nonTerminal_of_running (env : Env) (n : Nat)
    (h : ∀ i, i < n → (env.polls i).jobStatus = "RUNNING") :
    ∀ m, m < n → nonTerminal (env.polls (0 + m)) := by
  intro m hm
  rw [Nat.zero_add]
  have hr := h m hm
  exact ⟨by rw [hr]; decide, by rw [hr]; decide⟩

theorem delete_of_200_lambda_handler (env : Env)
    (h : (lambda_handler env).1.statusCode = 200) :
    Call.s3Delete ∈ (lambda_handler env).2 := by
  cases hb : env.bodyParse with
  | none => simp [lambda_handler, hb, create_error_response] at h
  | some body =>
    by_cases hv : (truthy body.pdf_base64 && truthy body.question) = true
    · cases h4 : env.b64Result with
      | error e => simp [lambda_handler, hb, hv, h4, create_error_response] at h
      | ok u =>
        cases h5 : env.s3PutResult with
        | error e => simp [lambda_handler, hb, hv, h4, h5, create_error_response] at h
        | ok v =>
          cases h6 : env.startResult with
          | error e => simp [lambda_handler, hb, hv, h4, h5, h6, create_error_response] at h
          | ok jid =>
            simp only [lambda_handler, hb, hv, if_true, ite_true, h4, h5, h6] at h ⊢
            exact delete_of_200_poll_stage _ _ h
    · simp [lambda_handler, hb, hv, create_error_response] at h

theorem hf_stage_esc (envA envB : Env) (t q : String) (pre : List Call)
    (hhf : envA.hf = envB.hf)
    (hd : deleteEscalation envA.deleteResult = deleteEscalation envB.deleteResult) :
    hf_stage envA t q pre = hf_stage envB t q pre := by
  unfold hf_stage
  rw [hhf]
  cases hB : envB.hf with
  | requestException msg => simp only [hB]
  | response s r p =>
    simp only [hB]
    by_cases hst : s = 200
    · cases p with
      | error e => simp only [hst, if_true, ite_true]
      | ok j =>
        cases hx : extract_generated j with
        | error e => simp only [hst, if_true, ite_true, hx]
        | ok raw =>
          simp only [hst, if_true, ite_true, hx]
          cases hA2 : envA.deleteResult <;> cases hB2 : envB.deleteResult <;>
            rw [hA2, hB2] at hd <;> simp_all [deleteEscalation]
    · simp only [hst, if_false, ite_false]

theorem poll_stage_esc (envA envB : Env) (q : String)
    (hp : envA.polls = envB.polls) (hc : envA.contPages = envB.contPages)
    (hhf : envA.hf = envB.hf)
    (hd : deleteEscalation envA.deleteResult = deleteEscalation envB.deleteResult) :
    poll_stage envA q = poll_stage envB q := by
  unfold poll_stage
  rw [hp, hc]
  rcases hpl : pollLoop envB.polls 12 0 with ⟨o, tr⟩
  cases o with
  | failed msg => simp only [hpl]
  | exhausted => simp only [hpl]
  | succeeded page =>
    simp only [hpl]
    by_cases ht : pyJoin " " (paginate page envB.contPages).1 = ""
    · simp only [ht, if_true, ite_true]
    · simp only [ht, if_false, ite_false]
      exact hf_stage_esc envA envB _ _ _ hhf hd

theorem lambda_handler_esc (envA envB : Env)
    (hb : envA.bodyParse = envB.bodyParse) (h64 : envA.b64Result = envB.b64Result)
    (hs3 : envA.s3PutResult = envB.s3PutResult) (hst : envA.startResult = envB.startResult)
    (hp : envA.polls = envB.polls) (hc : envA.contPages = envB.contPages)
    (hhf : envA.hf = envB.hf)
    (hd : deleteEscalation envA.deleteResult = deleteEscalation envB.deleteResult) :
    lambda_handler envA = lambda_handler envB := by
  unfold lambda_handler
  rw [hb, h64, hs3, hst]
  cases hbp : envB.bodyParse with
  | none => simp only [hbp]
  | some body =>
    simp only [hbp]
    by_cases hv : (truthy body.pdf_base64 && truthy body.question) = true
    · simp only [hv, if_true, ite_true]
      cases h642 : envB.b64Result with
      | error e => simp only [h642]
      | ok u =>
        simp only [h642]
        cases hs32 : envB.s3PutResult with
        | error e => simp only [hs32]
        | ok v =>
          simp only [hs32]
          cases hst2 : envB.startResult with
          | error e => simp only [hst2]
          | ok jid =>
            simp only [hst2]
            exact poll_stage_esc envA envB _ hp hc hhf hd
    · simp only [hv, Bool.not_eq_true, Bool.false_eq_true, if_false, ite_false]

/-- C1: in every run that passes validation, staging and job submission and
whose OCR job reports SUCCEEDED on poll attempt k (1 ≤ k ≤ 12) after running
on the earlier attempts, with a token-chained pagination sequence, the poll
loop stops at attempt k with the page of the final poll, and the ExtractedText
passed onward to the inference stage equals the texts of exactly the LINE
blocks, joined with single spaces, in page-fetch order and then block order
within each page — an expression independent of k — with one pagination
fetch per continuation page. -/
theorem c1_extracted_text (env : Env) (body : ParsedBody) (jid : String) (k : Nat)
    (h1 : env.bodyParse = some body) (h2 : truthy body.pdf_base64 = true)
    (h3 : truthy body.question = true) (h4 : env.b64Result = Except.ok ())
    (h5 : env.s3PutResult = Except.ok ()) (h6 : env.startResult = Except.ok jid)
    (hk1 : 1 ≤ k) (hk2 : k ≤ 12)
    (hrun : ∀ i, i < k - 1 → (env.polls i).jobStatus = "RUNNING")
    (hsucc : (env.polls (k - 1)).jobStatus = "SUCCEEDED")
    (hchain : chain (env.polls (k - 1)) env.contPages) :
    pollLoop env.polls 12 0 =
      (PollOutcome.succeeded (env.polls (k - 1)),
        (List.replicate (k - 1) [Call.pollStatus, Call.sleep5]).flatten ++ [Call.pollStatus]) ∧
    pyJoin " " (paginate (env.polls (k - 1)) env.contPages).1 =
      pyJoin " " (((env.polls (k - 1) :: env.contPages).map lineTexts).flatten) ∧
    (pyJoin " " (((env.polls (k - 1) :: env.contPages).map lineTexts).flatten) ≠ "" →
      lambda_handler env =
        hf_stage env
          (pyJoin " " (((env.polls (k - 1) :: env.contPages).map lineTexts).flatten))
          (body.question.getD "")
          ([Call.s3Put, Call.startJob] ++
            ((List.replicate (k - 1) [Call.pollStatus, Call.sleep5]).flatten ++
              [Call.pollStatus]) ++
            List.replicate env.contPages.length Call.fetchPage)) := by
  have hnt := nonTerminal_of_running env (k - 1) hrun
  have hstops := (pollLoop_stops env.polls (k - 1) 12 0 (by omega) hnt).1
    (by rwa [Nat.zero_add])
  simp only [Nat.zero_add] at hstops
  have hpag := paginate_chain env.contPages (env.polls (k - 1)) hchain
  have hmapeq : (fun p : TextractPage => collectLines p.blocks) = lineTexts :=
    funext collectLines_eq_lineTexts
  refine ⟨hstops, ?_, ?_⟩
  · rw [hpag, hmapeq]
  · intro hne
    have hrp := lambda_handler_reaches_poll env body jid h1 h2 h3 h4 h5 h6
    rw [hrp]
    simp only [poll_stage, hstops]
    rw [hpag, hmapeq]
    simp only [hne, if_false, ite_false]

/-- Witness for C1: in a concrete environment whose job succeeds at the first
poll with a single LINE block, the conclusion of the theorem evaluates. -/
theorem c1_extracted_text_witness :
    pollLoop wEnvBase.polls 12 0 =
      (PollOutcome.succeeded (wEnvBase.polls 0),
        (List.replicate 0 [Call.pollStatus, Call.sleep5]).flatten ++ [Call.pollStatus]) ∧
    pyJoin " " (paginate (wEnvBase.polls 0) wEnvBase.contPages).1 =
      pyJoin " " (((wEnvBase.polls 0 :: wEnvBase.contPages).map lineTexts).flatten) ∧
    lambda_handler wEnvBase =
      hf_stage wEnvBase
        (pyJoin " " (((wEnvBase.polls 0 :: wEnvBase.contPages).map lineTexts).flatten))
        (wBody.question.getD "")
        ([Call.s3Put, Call.startJob] ++
          ((List.replicate 0 [Call.pollStatus, Call.sleep5]).flatten ++ [Call.pollStatus]) ++
          List.replicate wEnvBase.contPages.length Call.fetchPage) := by
  have h := c1_extracted_text wEnvBase wBody "job-1" 1 rfl (by decide) (by decide)
    rfl rfl rfl (by decide) (by decide) (fun i hi => absurd hi (by omega))
    (by decide) rfl
  exact ⟨h.1, h.2.1, h.2.2 (by decide)⟩

/-- C2: in every run that passes validation, staging and job submission and
whose OCR job reports RUNNING on every status poll, the handler polls exactly
12 times with a 5-second sleep between successive polls and returns the 500
timeout error; moreover, across all environments whatsoever, the status is
never polled more than 12 times. -/
theorem c2_polling_budget :
    (∀ (env : Env) (body : ParsedBody) (jid : String),
      env.bodyParse = some body → truthy body.pdf_base64 = true →
      truthy body.question = true → env.b64Result = Except.ok () →
      env.s3PutResult = Except.ok () → env.startResult = Except.ok jid →
      (∀ i, i < 12 → (env.polls i).jobStatus = "RUNNING") →
      lambda_handler env =
        (create_error_response 500 "Textract processing timeout" none,
          [Call.s3Put, Call.startJob] ++
            (List.replicate 12 [Call.pollStatus, Call.sleep5]).flatten) ∧
      countPolls (lambda_handler env).2 = 12) ∧
    (∀ env : Env, countPolls (lambda_handler env).2 ≤ 12) := by
  constructor
  · intro env body jid h1 h2 h3 h4 h5 h6 hrunning
    have hnt := nonTerminal_of_running env 12 hrunning
    have hpoll := pollLoop_exhausts env.polls 12 0 hnt
    have hrp := lambda_handler_reaches_poll env body jid h1 h2 h3 h4 h5 h6
    have hmain : lambda_handler env =
        (create_error_response 500 "Textract processing timeout" none,
          [Call.s3Put, Call.startJob] ++
            (List.replicate 12 [Call.pollStatus, Call.sleep5]).flatten) := by
      rw [hrp]
      simp only [poll_stage, hpoll]
    refine ⟨hmain, ?_⟩
    rw [hmain]
    have h12 := countPolls_replicate_flatten 12
    simp only [countPolls, List.count_append] at h12 ⊢
    simp [h12]
  · exact countPolls_lambda_handler

/-- Witness for C2: the always-running environment produces the timeout
response with exactly 12 polls. -/
theorem c2_polling_budget_witness :
    lambda_handler wEnvRunning =
      (create_error_response 500 "Textract processing timeout" none,
        [Call.s3Put, Call.startJob] ++
          (List.replicate 12 [Call.pollStatus, Call.sleep5]).flatten) ∧
    countPolls (lambda_handler wEnvRunning).2 = 12 :=
  c2_polling_budget.1 wEnvRunning wBody "job-1" rfl (by decide) (by decide)
    rfl rfl rfl (fun i _ => rfl)

/-- C3 counterexample: in a run whose job reports FAILED at the first poll
with a StatusMessage that is present but empty, the details of the error
response are neither the service-provided status message nor the generic
placeholder: they fall back to the error label itself. -/
theorem c3_failed_details_counterexample :
    (wEnvFailedEmptyMsg.polls 0).jobStatus = "FAILED" ∧
    (wEnvFailedEmptyMsg.polls 0).statusMessage = some "" ∧
    respDetails (lambda_handler wEnvFailedEmptyMsg).1.body =
      some "Textract processing failed" ∧
    respDetails (lambda_handler wEnvFailedEmptyMsg).1.body ≠ some "" ∧
    respDetails (lambda_handler wEnvFailedEmptyMsg).1.body ≠
      some "No error details available" := by
  decide

/-- C3 (amended): in every run that passes validation, staging and job
submission and whose OCR job reports FAILED on poll attempt k (1 ≤ k ≤ 12)
after running on the earlier attempts, the handler stops at attempt k and
returns a 500 error whose details are the service-provided status message
when present and non-empty, the error label itself when the message is
present but empty, and the generic placeholder when absent; exactly k status
polls occur and no pagination fetch or inference call is made. -/
theorem c3_failed_error (env : Env) (body : ParsedBody) (jid : String) (k : Nat)
    (h1 : env.bodyParse = some body) (h2 : truthy body.pdf_base64 = true)
    (h3 : truthy body.question = true) (h4 : env.b64Result = Except.ok ())
    (h5 : env.s3PutResult = Except.ok ()) (h6 : env.startResult = Except.ok jid)
    (hk1 : 1 ≤ k) (hk2 : k ≤ 12)
    (hrun : ∀ i, i < k - 1 → (env.polls i).jobStatus = "RUNNING")
    (hfail : (env.polls (k - 1)).jobStatus = "FAILED") :
    lambda_handler env =
      (create_error_response 500 "Textract processing failed"
        (some ((env.polls (k - 1)).statusMessage.getD "No error details available")),
        [Call.s3Put, Call.startJob] ++
          ((List.replicate (k - 1) [Call.pollStatus, Call.sleep5]).flatten ++
            [Call.pollStatus])) ∧
    respDetails (lambda_handler env).1.body =
      some (match (env.polls (k - 1)).statusMessage with
            | none => "No error details available"
            | some s => if s = "" then "Textract processing failed" else s) ∧
    countPolls (lambda_handler env).2 = k ∧
    Call.fetchPage ∉ (lambda_handler env).2 ∧
    Call.hfCall ∉ (lambda_handler env).2 := by
  have hnt := nonTerminal_of_running env (k - 1) hrun
  have hstops := (pollLoop_stops env.polls (k - 1) 12 0 (by omega) hnt).2
    (by rwa [Nat.zero_add])
  simp only [Nat.zero_add] at hstops
  have hrp := lambda_handler_reaches_poll env body jid h1 h2 h3 h4 h5 h6
  have hmain : lambda_handler env =
      (create_error_response 500 "Textract processing failed"
        (some ((env.polls (k - 1)).statusMessage.getD "No error details available")),
        [Call.s3Put, Call.startJob] ++
          ((List.replicate (k - 1) [Call.pollStatus, Call.sleep5]).flatten ++
            [Call.pollStatus])) := by
    rw [hrp]
    simp only [poll_stage, hstops]
  refine ⟨hmain, ?_, ?_, ?_, ?_⟩
  · rw [hmain]
    simp only [create_error_response, respDetails]
    cases hsm : (env.polls (k - 1)).statusMessage with
    | none => simp
    | some s =>
      by_cases hs : s = ""
      · simp [hs]
      · simp [hs]
  · rw [hmain]
    have hcnt := countPolls_replicate_flatten (k - 1)
    simp only [countPolls, List.count_append] at hcnt ⊢
    simp [hcnt]
    omega
  · rw [hmain]
    simp [List.mem_append, List.mem_flatten, List.mem_replicate]
  · rw [hmain]
    simp [List.mem_append, List.mem_flatten, List.mem_replicate]

/-- Witness for C3: a concrete run failing on the first poll with status
message boom. -/
theorem c3_failed_error_witness :
    lambda_handler wEnvFailed =
      (create_error_response 500 "Textract processing failed"
        (some ((wEnvFailed.polls 0).statusMessage.getD "No error details available")),
        [Call.s3Put, Call.startJob] ++
          ((List.replicate 0 [Call.pollStatus, Call.sleep5]).flatten ++
            [Call.pollStatus])) ∧
    respDetails (lambda_handler wEnvFailed).1.body =
      some (match (wEnvFailed.polls 0).statusMessage with
            | none => "No error details available"
            | some s => if s = "" then "Textract processing failed" else s) ∧
    countPolls (lambda_handler wEnvFailed).2 = 1 ∧
    Call.fetchPage ∉ (lambda_handler wEnvFailed).2 ∧
    Call.hfCall ∉ (lambda_handler wEnvFailed).2 :=
  c3_failed_error wEnvFailed wBody "job-1" 1 rfl (by decide) (by decide)
    rfl rfl rfl (by decide) (by decide) (fun i hi => absurd hi (by omega)) rfl

/-- C4: in every run that passes validation, staging and job submission, if
the job succeeds on attempt k but the joined ExtractedText is empty after
pagination, the handler returns exactly the same 500 timeout error as a run
whose poll budget is exhausted, and the inference endpoint is called in
neither case. -/
theorem c4_empty_text_timeout :
    (∀ (env : Env) (body : ParsedBody) (jid : String) (k : Nat),
      env.bodyParse = some body → truthy body.pdf_base64 = true →
      truthy body.question = true → env.b64Result = Except.ok () →
      env.s3PutResult = Except.ok () → env.startResult = Except.ok jid →
      1 ≤ k → k ≤ 12 →
      (∀ i, i < k - 1 → (env.polls i).jobStatus = "RUNNING") →
      (env.polls (k - 1)).jobStatus = "SUCCEEDED" →
      pyJoin " " (paginate (env.polls (k - 1)) env.contPages).1 = "" →
      (lambda_handler env).1 = create_error_response 500 "Textract processing timeout" none ∧
      Call.hfCall ∉ (lambda_handler env).2) ∧
    (∀ (env : Env) (body : ParsedBody) (jid : String),
      env.bodyParse = some body → truthy body.pdf_base64 = true →
      truthy body.question = true → env.b64Result = Except.ok () →
      env.s3PutResult = Except.ok () → env.startResult = Except.ok jid →
      (∀ i, i < 12 → (env.polls i).jobStatus = "RUNNING") →
      (lambda_handler env).1 = create_error_response 500 "Textract processing timeout" none ∧
      Call.hfCall ∉ (lambda_handler env).2) := by
  constructor
  · intro env body jid k h1 h2 h3 h4 h5 h6 hk1 hk2 hrun hsucc htext
    have hnt := nonTerminal_of_running env (k - 1) hrun
    have hstops := (pollLoop_stops env.polls (k - 1) 12 0 (by omega) hnt).1
      (by rwa [Nat.zero_add])
    simp only [Nat.zero_add] at hstops
    have hrp := lambda_handler_reaches_poll env body jid h1 h2 h3 h4 h5 h6
    have hmain : lambda_handler env =
        (create_error_response 500 "Textract processing timeout" none,
          [Call.s3Put, Call.startJob] ++
            ((List.replicate (k - 1) [Call.pollStatus, Call.sleep5]).flatten ++
              [Call.pollStatus]) ++
            (paginate (env.polls (k - 1)) env.contPages).2) := by
      rw [hrp]
      simp only [poll_stage, hstops, htext, if_true, ite_true]
    constructor
    · rw [hmain]
    · rw [hmain]
      intro hmem
      rcases List.mem_append.mp hmem with h | h
      · simp only [List.mem_append, List.mem_flatten, List.mem_replicate] at h
        rcases h with h | h | h
        · simp at h
        · obtain ⟨l, hl, hml⟩ := h
          rw [hl.2] at hml
          simp at hml
        · simp at h
      · have := paginate_trace_fetch env.contPages (env.polls (k - 1)) Call.hfCall h
        exact absurd this (by decide)
  · intro env body jid h1 h2 h3 h4 h5 h6 hrunning
    have hnt := nonTerminal_of_running env 12 hrunning
    have hpoll := pollLoop_exhausts env.polls 12 0 hnt
    have hrp := lambda_handler_reaches_poll env body jid h1 h2 h3 h4 h5 h6
    have hmain : lambda_handler env =
        (create_error_response 500 "Textract processing timeout" none,
          [Call.s3Put, Call.startJob] ++
            (List.replicate 12 [Call.pollStatus, Call.sleep5]).flatten) := by
      rw [hrp]
      simp only [poll_stage, hpoll]
    constructor
    · rw [hmain]
    · rw [hmain]
      simp [List.mem_append, List.mem_flatten, List.mem_replicate]

/-- Witness for C4: a concrete successful job with no LINE blocks yields the
timeout error without an inference call, and so does the always-running
environment. -/
theorem c4_empty_text_timeout_witness :
    ((lambda_handler wEnvEmptyText).1 =
        create_error_response 500 "Textract processing timeout" none ∧
      Call.hfCall ∉ (lambda_handler wEnvEmptyText).2) ∧
    ((lambda_handler wEnvRunning).1 =
        create_error_response 500 "Textract processing timeout" none ∧
      Call.hfCall ∉ (lambda_handler wEnvRunning).2) :=
  ⟨c4_empty_text_timeout.1 wEnvEmptyText wBody "job-1" 1 rfl (by decide) (by decide)
      rfl rfl rfl (by decide) (by decide) (fun i hi => absurd hi (by omega))
      rfl (by decide),
    c4_empty_text_timeout.2 wEnvRunning wBody "job-1" rfl (by decide) (by decide)
      rfl rfl rfl (fun i _ => rfl)⟩

/-- C5: for every request that parses but whose pdf_base64 or question field
is absent or empty, the handler returns the 400 error naming exactly the
missing fields, pdf_base64 first and question second, and performs no
external call at all (the trace is empty). -/
theorem c5_missing_params (env : Env) (body : ParsedBody)
    (h1 : env.bodyParse = some body) :
    (truthy body.pdf_base64 = false → truthy body.question = false →
      lambda_handler env =
        (create_error_response 400 "Missing required parameters: pdf_base64, question" none,
          [])) ∧
    (truthy body.pdf_base64 = false → truthy body.question = true →
      lambda_handler env =
        (create_error_response 400 "Missing required parameters: pdf_base64" none, [])) ∧
    (truthy body.pdf_base64 = true → truthy body.question = false →
      lambda_handler env =
        (create_error_response 400 "Missing required parameters: question" none, [])) := by
  refine ⟨?_, ?_, ?_⟩
  · intro hp hq
    simp only [lambda_handler, h1, hp, hq, missing_params, Bool.and_self,
      Bool.false_and, Bool.false_eq_true, if_false]
    decide
  · intro hp hq
    simp only [lambda_handler, h1, hp, hq, missing_params, Bool.false_and,
      Bool.false_eq_true, if_false]
    decide
  · intro hp hq
    simp only [lambda_handler, h1, hp, hq, missing_params, Bool.and_false,
      Bool.false_eq_true, if_false]
    decide

/-- Witness for C5: the three concrete missing-field environments produce the
three 400 responses with empty traces. -/
theorem c5_missing_params_witness :
    lambda_handler wEnvMissingBoth =
      (create_error_response 400 "Missing required parameters: pdf_base64, question" none,
        []) ∧
    lambda_handler wEnvMissingPdf =
      (create_error_response 400 "Missing required parameters: pdf_base64" none, []) ∧
    lambda_handler wEnvMissingQ =
      (create_error_response 400 "Missing required parameters: question" none, []) :=
  ⟨(c5_missing_params wEnvMissingBoth _ rfl).1 (by decide) (by decide),
    (c5_missing_params wEnvMissingPdf _ rfl).2.1 (by decide) (by decide),
    (c5_missing_params wEnvMissingQ _ rfl).2.2 (by decide) (by decide)⟩

/-- C6: in every run reaching the inference stage whose endpoint answers 200
with a parsed body (and whose document deletion does not raise an uncaught
exception), the returned answer is the generated-text field of the first
element (if the response is a sequence) or of the object itself, defaulting
to the placeholder when absent, with every occurrence of the literal prompt
removed and surrounding whitespace trimmed. -/
theorem c6_answer_postprocess (env : Env) (body : ParsedBody) (jid : String)
    (page : TextractPage) (ptr : List Call) (rtext : String) (j : HfJson) (item : HfItem)
    (h1 : env.bodyParse = some body) (h2 : truthy body.pdf_base64 = true)
    (h3 : truthy body.question = true) (h4 : env.b64Result = Except.ok ())
    (h5 : env.s3PutResult = Except.ok ()) (h6 : env.startResult = Except.ok jid)
    (hpoll : pollLoop env.polls 12 0 = (PollOutcome.succeeded page, ptr))
    (htext : pyJoin " " (paginate page env.contPages).1 ≠ "")
    (hhf : env.hf = HfOutcome.response 200 rtext (Except.ok j))
    (hfirst : firstCandidate j = some item)
    (hdel : deleteEscalation env.deleteResult = none) :
    (lambda_handler env).1 =
      success_response (body.question.getD "")
        (pyStrip (pyReplace (item.generated_text.getD "No answer found")
          (buildPrompt (pyTake (pyJoin " " (paginate page env.contPages).1) 2000)
            (body.question.getD "")) ""))
        (pyJoin " " (paginate page env.contPages).1) := by
  have hrp := lambda_handler_reaches_poll env body jid h1 h2 h3 h4 h5 h6
  have hx := extract_generated_of_firstCandidate j item hfirst
  rw [hrp]
  simp only [poll_stage, hpoll, htext, if_false, ite_false]
  cases hdc : env.deleteResult with
  | ok =>
    simp only [hf_stage, hhf, hx, hdc]
    simp
  | clientError m =>
    simp only [hf_stage, hhf, hx, hdc]
    simp
  | otherError e =>
    rw [hdc] at hdel
    simp [deleteEscalation] at hdel

/-- Witness for C6: the concrete successful run produces the post-processed
answer. -/
theorem c6_answer_postprocess_witness :
    (lambda_handler wEnvBase).1 =
      success_response (wBody.question.getD "")
        (pyStrip (pyReplace ((HfItem.mk (some "An answer.")).generated_text.getD
            "No answer found")
          (buildPrompt (pyTake (pyJoin " " (paginate wLinePage wEnvBase.contPages).1) 2000)
            (wBody.question.getD "")) ""))
        (pyJoin " " (paginate wLinePage wEnvBase.contPages).1) :=
  c6_answer_postprocess wEnvBase wBody "job-1" wLinePage [Call.pollStatus] "raw"
    (HfJson.obj { generated_text := some "An answer." })
    { generated_text := some "An answer." }
    rfl (by decide) (by decide) rfl rfl rfl (by decide) (by decide) rfl rfl rfl

set_option maxRecDepth 200000 in
/-- C7 counterexample: two runs that differ only in the outcome of the
staged-document deletion: with a successful delete the handler returns 200,
but when the delete raises a botocore connection error — an exception that is
not a ClientError, hence not caught by the deletion handler — the generic
Textract-section handler turns the response into a 500 error carrying the
exception message, so the deletion failure does change the returned status
code and body and is propagated. -/
theorem c7_delete_failure_counterexample :
    wEnvDeleteConn =
      { wEnvBase with deleteResult :=
          DeleteOutcome.otherError "Could not connect to the endpoint URL" } ∧
    (lambda_handler wEnvBase).1.statusCode = 200 ∧
    (lambda_handler wEnvDeleteConn).1.statusCode = 500 ∧
    respError (lambda_handler wEnvDeleteConn).1.body =
      some ("Textract processing error: " ++ "Could not connect to the endpoint URL") :=
  ⟨rfl, by decide, by decide, by decide⟩

/-- C7 (amended): a deletion failure of the kind the handler catches — a
ClientError — is logged only and never changes the response or the trace of a
run (two environments agreeing on everything else and whose delete outcomes
both avoid an uncaught exception produce identical output); every run that
returns 200 has attempted the deletion; but a deletion failure raising any
other exception propagates to the generic Textract-section handler and
replaces the success response with a 500 error carrying the exception
message. -/
theorem c7_delete_outcomes :
    (∀ envA envB : Env,
      envA.bodyParse = envB.bodyParse → envA.b64Result = envB.b64Result →
      envA.s3PutResult = envB.s3PutResult → envA.startResult = envB.startResult →
      envA.polls = envB.polls → envA.contPages = envB.contPages → envA.hf = envB.hf →
      deleteEscalation envA.deleteResult = deleteEscalation envB.deleteResult →
      lambda_handler envA = lambda_handler envB) ∧
    (∀ env : Env, (lambda_handler env).1.statusCode = 200 →
      Call.s3Delete ∈ (lambda_handler env).2) ∧
    (∀ (env : Env) (body : ParsedBody) (jid : String) (page : TextractPage)
        (ptr : List Call) (rtext : String) (j : HfJson) (item : HfItem) (e : String),
      env.bodyParse = some body → truthy body.pdf_base64 = true →
      truthy body.question = true → env.b64Result = Except.ok () →
      env.s3PutResult = Except.ok () → env.startResult = Except.ok jid →
      pollLoop env.polls 12 0 = (PollOutcome.succeeded page, ptr) →
      pyJoin " " (paginate page env.contPages).1 ≠ "" →
      env.hf = HfOutcome.response 200 rtext (Except.ok j) →
      firstCandidate j = some item →
      env.deleteResult = DeleteOutcome.otherError e →
      (lambda_handler env).1 =
        create_error_response 500 ("Textract processing error: " ++ e) none ∧
      Call.s3Delete ∈ (lambda_handler env).2) := by
  refine ⟨lambda_handler_esc, delete_of_200_lambda_handler, ?_⟩
  intro env body jid page ptr rtext j item e h1 h2 h3 h4 h5 h6 hpoll htext hhf hfirst hdel
  have hrp := lambda_handler_reaches_poll env body jid h1 h2 h3 h4 h5 h6
  have hx := extract_generated_of_firstCandidate j item hfirst
  rw [hrp]
  simp only [poll_stage, hpoll, htext, if_false, ite_false]
  simp only [hf_stage, hhf, hx, hdel]
  simp

set_option maxRecDepth 200000 in
/-- Witness for C7: a logged ClientError deletion failure leaves the
concrete successful run unchanged, that run attempts the deletion, and the
connection-error deletion failure yields the escalated 500 response while
still attempting the deletion. -/
theorem c7_delete_outcomes_witness :
    lambda_handler wEnvDeleteLogged = lambda_handler wEnvBase ∧
    Call.s3Delete ∈ (lambda_handler wEnvBase).2 ∧
    (lambda_handler wEnvDeleteConn).1 =
      create_error_response 500
        ("Textract processing error: " ++ "Could not connect to the endpoint URL") none ∧
    Call.s3Delete ∈ (lambda_handler wEnvDeleteConn).2 :=
  ⟨c7_delete_outcomes.1 wEnvDeleteLogged wEnvBase rfl rfl rfl rfl rfl rfl rfl rfl,
    c7_delete_outcomes.2.1 wEnvBase (by decide),
    c7_delete_outcomes.2.2 wEnvDeleteConn wBody "job-1" wLinePage [Call.pollStatus] "raw"
      (HfJson.obj { generated_text := some "An answer." })
      { generated_text := some "An answer." }
      "Could not connect to the endpoint URL"
      rfl (by decide) (by decide) rfl rfl rfl (by decide) (by decide) rfl rfl rfl⟩

/-- C8: the handler is total: every run returns an HTTP response with status
200, 400 or 500, and an exception not handled by a more specific branch (here
the base64 decoding failure, which no inner handler catches) is reported as
the top-level 500 response carrying the exception message. -/
theorem c8_total_handler :
    (∀ env : Env,
      (lambda_handler env).1.statusCode = 200 ∨ (lambda_handler env).1.statusCode = 400 ∨
        (lambda_handler env).1.statusCode = 500) ∧
    (∀ (env : Env) (body : ParsedBody) (e : String),
      env.bodyParse = some body → truthy body.pdf_base64 = true →
      truthy body.question = true → env.b64Result = Except.error e →
      lambda_handler env =
        (create_error_response 500 ("Unexpected error: " ++ e) none, [])) := by
  constructor
  · intro env
    exact (stdShape_lambda_handler env).2.1
  · intro env body e h1 h2 h3 h4
    simp [lambda_handler, h1, h2, h3, h4]

/-- Witness for C8: the run whose base64 decoding raises returns the
top-level 500 response. -/
theorem c8_total_handler_witness :
    lambda_handler wEnvB64Err =
      (create_error_response 500 ("Unexpected error: " ++ "Invalid base64") none, []) :=
  c8_total_handler.2 wEnvB64Err wBody "Invalid base64" rfl (by decide) (by decide) rfl

/-- C9: every response carries the JSON content type and permissive CORS
headers; every non-200 response has an {error, details} body; and the details
of an error envelope default to the error message when no richer diagnostic
(None or an empty string) is supplied, while a non-empty diagnostic is kept. -/
theorem c9_response_envelope :
    (∀ env : Env, (lambda_handler env).1.headers =
      [("Content-Type", "application/json"), ("Access-Control-Allow-Origin", "*")]) ∧
    (∀ env : Env, (lambda_handler env).1.statusCode ≠ 200 →
      ∃ m d, (lambda_handler env).1.body = RespBody.errorBody m d) ∧
    (∀ (sc : Nat) (m : String),
      (create_error_response sc m none).body = RespBody.errorBody m m) ∧
    (∀ (sc : Nat) (m : String),
      (create_error_response sc m (some "")).body = RespBody.errorBody m m) ∧
    (∀ (sc : Nat) (m d : String), d ≠ "" →
      (create_error_response sc m (some d)).body = RespBody.errorBody m d) := by
  refine ⟨fun env => (stdShape_lambda_handler env).1,
    fun env => (stdShape_lambda_handler env).2.2,
    fun sc m => rfl, fun sc m => rfl, fun sc m d hd => ?_⟩
  simp [create_error_response, hd]

/-- Witness for C9: the malformed-body run yields an error envelope, and a
non-empty diagnostic is kept verbatim. -/
theorem c9_response_envelope_witness :
    (∃ m d, (lambda_handler wEnvBadBody).1.body = RespBody.errorBody m d) ∧
    (create_error_response 500 "msg" (some "rich")).body = RespBody.errorBody "msg" "rich" :=
  ⟨c9_response_envelope.2.1 wEnvBadBody (by decide),
    c9_response_envelope.2.2.2.2 500 "msg" "rich" (by decide)⟩

/-- C10 counterexample: a 200 inference response whose body is not parseable
as JSON is reported with the inference-error label: since requests 2.27 the
JSONDecodeError raised by .json() is a RequestException and is caught by the
dedicated inference handler, so the response is not the Textract-processing-
error envelope the claim asserts for this case. -/
theorem c10_parse_error_counterexample :
    respError (lambda_handler wEnvParseErr).1.body =
      some ("Error calling Hugging Face API: " ++ "Expecting value") ∧
    respError (lambda_handler wEnvParseErr).1.body ≠
      some ("Textract processing error: " ++ "Expecting value") := by
  decide

/-- C10 (amended): in every run reaching the inference stage, an inference
failure that is neither an exception of the requests RequestException class
nor a non-200 HTTP status — such as the IndexError raised by a 200 response
that parses to an empty sequence — is reported as the 500 Textract-processing
-error envelope carrying the exception message; a 200 response whose body is
not parseable is instead caught by the RequestException handler (the raised
JSONDecodeError being a RequestException since requests 2.27) and reported as
the inference-error response carrying the exception message. -/
theorem c10_textract_error_label (env : Env) (body : ParsedBody) (jid : String)
    (page : TextractPage) (ptr : List Call) (rtext : String)
    (h1 : env.bodyParse = some body) (h2 : truthy body.pdf_base64 = true)
    (h3 : truthy body.question = true) (h4 : env.b64Result = Except.ok ())
    (h5 : env.s3PutResult = Except.ok ()) (h6 : env.startResult = Except.ok jid)
    (hpoll : pollLoop env.polls 12 0 = (PollOutcome.succeeded page, ptr))
    (htext : pyJoin " " (paginate page env.contPages).1 ≠ "") :
    (env.hf = HfOutcome.response 200 rtext (Except.ok (HfJson.list [])) →
      (lambda_handler env).1 =
        create_error_response 500 "Textract processing error: list index out of range" none) ∧
    (∀ e : String, env.hf = HfOutcome.response 200 rtext (Except.error e) →
      (lambda_handler env).1 =
        create_error_response 500 ("Error calling Hugging Face API: " ++ e) none) := by
  have hrp := lambda_handler_reaches_poll env body jid h1 h2 h3 h4 h5 h6
  constructor
  · intro hhf
    rw [hrp]
    simp only [poll_stage, hpoll, htext, if_false, ite_false]
    simp only [hf_stage, hhf]
    simp [extract_generated]
  · intro e hhf
    rw [hrp]
    simp only [poll_stage, hpoll, htext, if_false, ite_false]
    simp only [hf_stage, hhf]
    simp

/-- Witness for C10: a concrete empty-list 200 body yields the
Textract-processing-error envelope, and a concrete unparseable 200 body
yields the inference-error envelope. -/
theorem c10_textract_error_label_witness :
    (lambda_handler wEnvEmptyList).1 =
      create_error_response 500 "Textract processing error: list index out of range" none ∧
    (lambda_handler wEnvParseErr).1 =
      create_error_response 500 ("Error calling Hugging Face API: " ++ "Expecting value") none :=
  ⟨(c10_textract_error_label wEnvEmptyList wBody "job-1" wLinePage [Call.pollStatus]
      "[]" rfl (by decide) (by decide) rfl rfl rfl (by decide) (by decide)).1 rfl,
    (c10_textract_error_label wEnvParseErr wBody "job-1" wLinePage [Call.pollStatus]
      "not json" rfl (by decide) (by decide) rfl rfl rfl (by decide) (by decide)).2
      "Expecting value" rfl⟩

end NLC
